import Mathlib

/-!
Verification of the SAIV attendance backend (sc3099-be).

Shallow embedding of the repository's domain logic:
* the Session model (src/src/model: the Session class bundled after the error
  classes — create, updateStatus, delete, and the WHERE clause of findActive),
* the Course model (Course.delete with its cascading cancel),
* the authorize guard and the role hierarchy,
* the UserModel.create path with the password-strength regex,
* the check-in uniqueness pipeline and the risk signal combiner, which are not
  implemented under src/ and are therefore modelled from the spec where noted.

Timestamps are modelled as integers (milliseconds since the epoch, the value
of Date.getTime / what SQL NOW() compares against); the database is modelled
as explicit lists of rows threaded through each operation.  An operation that
throws is modelled as returning the untouched store together with an error,
matching the fact that every throw in the source happens before or instead of
the corresponding INSERT / UPDATE / DELETE.
-/

namespace SAIV

/-- Session status strings, from the SessionStatus enum / VALID_SESSION_STATUSES
(src/src/__tests__/api-design.test.ts, enums section). -/
def VALID_SESSION_STATUSES : List String :=
  ["scheduled", "active", "closed", "cancelled"]

/-- A row of the sessions table, following the Session class field list.
Optional (nullable) columns are Option; timestamps are Int milliseconds. -/
structure Session where
  id : String
  course_id : String
  instructor_id : Option String
  name : String
  session_type : String
  description : Option String
  scheduled_start : Int
  scheduled_end : Int
  checkin_opens_at : Int
  checkin_closes_at : Int
  status : String
  venue_name : Option String
  venue_latitude : Option ℚ
  venue_longitude : Option ℚ
  geofence_radius_meters : Option ℚ
  require_liveness_check : Bool
  require_face_match : Bool
  risk_threshold : Option ℚ
  created_at : Int
  updated_at : Int
  deriving Repr, DecidableEq

/-- Input of Session.create (SessionCreateData).  A missing optional field is
none; the destructuring defaults of the source are applied inside create. -/
structure SessionCreateData where
  course_id : String
  instructor_id : Option String := none
  name : String
  session_type : String := "lecture"
  description : Option String := none
  scheduled_start : Int
  scheduled_end : Int
  checkin_opens_at : Option Int := none
  checkin_closes_at : Option Int := none
  venue_name : Option String := none
  venue_latitude : Option ℚ := none
  venue_longitude : Option ℚ := none
  geofence_radius_meters : Option ℚ := none
  require_liveness_check : Bool := true
  require_face_match : Bool := false
  risk_threshold : Option ℚ := none
  deriving Repr, DecidableEq

namespace Session

/-- Session.create.  Validates, then inserts a row with status 'scheduled'.
The default check-in window is opens = start - 15min, closes = start + 30min
(15 * 60 * 1000 and 30 * 60 * 1000 milliseconds).  newId stands for the
gen_random_uuid() the INSERT generates; now is the current clock reading.
A thrown validation error leaves the store untouched (the throw happens
before the INSERT). -/
def create (now : Int) (newId : String) (store : List Session)
    (data : SessionCreateData) : List Session × Except String Session :=
  let startTime := data.scheduled_start
  let endTime := data.scheduled_end
  let defaultOpensAt := data.checkin_opens_at.getD (startTime - 15 * 60 * 1000)
  let defaultClosesAt := data.checkin_closes_at.getD (startTime + 30 * 60 * 1000)
  if startTime ≤ now then
    (store, .error "scheduled_start must be in the future")
  else if endTime ≤ startTime then
    (store, .error "scheduled_end must be after scheduled_start")
  else if defaultClosesAt ≤ defaultOpensAt then
    (store, .error "checkin_closes_at must be after checkin_opens_at")
  else
    let row : Session :=
      { id := newId
        course_id := data.course_id
        instructor_id := data.instructor_id
        name := data.name
        session_type := data.session_type
        description := data.description
        scheduled_start := data.scheduled_start
        scheduled_end := data.scheduled_end
        checkin_opens_at := defaultOpensAt
        checkin_closes_at := defaultClosesAt
        status := "scheduled"
        venue_name := data.venue_name
        venue_latitude := data.venue_latitude
        venue_longitude := data.venue_longitude
        geofence_radius_meters := data.geofence_radius_meters
        require_liveness_check := data.require_liveness_check
        require_face_match := data.require_face_match
        risk_threshold := data.risk_threshold
        created_at := now
        updated_at := now }
    (store ++ [row], .ok row)

/-- Session.updateStatus.  Validates only that the status string is one of the
four VALID_SESSION_STATUSES, then unconditionally writes it: UPDATE sessions
SET status, updated_at WHERE id RETURNING *.  The returned Option Session is
the RETURNING row (none when no row matched, which the controller maps to
404); there is no check of the current status against any transition table. -/
def updateStatus (now : Int) (store : List Session) (id status : String) :
    List Session × Except String (Option Session) :=
  if !(VALID_SESSION_STATUSES.contains status) then
    (store, .error "Invalid status. Must be one of: scheduled, active, closed, cancelled")
  else
    let store' := store.map fun s =>
      if s.id == id then { s with status := status, updated_at := now } else s
    match store.find? (fun s => s.id == id) with
    | none => (store', .ok none)
    | some s => (store', .ok (some { s with status := status, updated_at := now }))

/-- Session.delete.  Reads the row's status first; a missing row throws
'Session not found', a non-scheduled row throws the only-scheduled error, and
only a scheduled row is physically deleted. -/
def delete (store : List Session) (id : String) :
    List Session × Except String Unit :=
  match store.find? (fun s => s.id == id) with
  | none => (store, .error "Session not found")
  | some s =>
    if s.status != "scheduled" then
      (store, .error "Only scheduled sessions can be deleted. Use cancel for active/closed sessions.")
    else
      (store.filter (fun t => t.id != id), .ok ())

/-- The WHERE clause of Session.findActive: status = 'active' AND
NOW() >= checkin_opens_at AND NOW() <= checkin_closes_at — the row filter of
the public active-sessions listing. -/
def findActiveWhere (s : Session) (now : Int) : Bool :=
  s.status == "active" && decide (s.checkin_opens_at ≤ now)
    && decide (now ≤ s.checkin_closes_at)

end Session

/-- A row of the courses table, following the Course class field list. -/
structure Course where
  id : String
  code : String
  name : String
  description : Option String
  semester : String
  is_active : Bool
  venue_latitude : Option ℚ
  venue_longitude : Option ℚ
  venue_name : Option String
  geofence_radius_meters : ℚ
  require_face_recognition : Bool
  require_device_binding : Bool
  risk_threshold : ℚ
  created_at : Int
  updated_at : Int
  deriving Repr, DecidableEq

namespace Course

/-- Course.delete.  First UPDATE courses SET is_active = FALSE, updated_at
WHERE id RETURNING id; when no row matched it returns false without touching
any session.  Otherwise UPDATE sessions SET status = 'cancelled', updated_at
WHERE course_id = id AND status IN ('scheduled', 'active'), and returns true.
The result carries the two updated tables and the boolean. -/
def delete (now : Int) (courses : List Course) (sessions : List Session)
    (id : String) : List Course × List Session × Bool :=
  if courses.any (fun c => c.id == id) then
    let courses' := courses.map fun c =>
      if c.id == id then { c with is_active := false, updated_at := now } else c
    let sessions' := sessions.map fun s =>
      if s.course_id == id && (s.status == "scheduled" || s.status == "active") then
        { s with status := "cancelled", updated_at := now }
      else s
    (courses', sessions', true)
  else
    (courses, sessions, false)

end Course

/-- USER_ROLE_HIERARCHY from src/src/model/user.ts: student 1, ta 2,
instructor 3, admin 4. -/
def USER_ROLE_HIERARCHY : List (String × Nat) :=
  [("student", 1), ("ta", 2), ("instructor", 3), ("admin", 4)]

/-- The level the authorize guard computes: USER_ROLE_HIERARCHY[userRole] || 0.
A missing role claim (none) or a string outside the table yields 0. -/
def roleLevel (userRole : Option String) : Nat :=
  match userRole with
  | none => 0
  | some r => (USER_ROLE_HIERARCHY.lookup r).getD 0

/-- The argument of the authorize decorator: a role list or a numeric required
level (the TS union USER_ROLE_TYPES[] | number; the source default is 1). -/
inductive AuthArg where
  | roles (rs : List String)
  | level (n : Int)
  deriving Repr, DecidableEq

/-- Outcome of the authorize pre-handler: pass, or one of the thrown errors. -/
inductive AuthResult where
  | granted
  | unauthorizedError
  | forbiddenError
  deriving Repr, DecidableEq

/-- The authorize guard (the auth plugin with the hierarchy, src/unnamed
part_007).  jwtVerify failure throws UnauthorizedError before any role check.
Numeric mode: ForbiddenError iff roleLevel < arg.  List mode: ForbiddenError
when the role claim is falsy (absent or the empty string) or not in the list.
userRole is the role claim of the verified JWT payload. -/
def authorize (arg : AuthArg) (jwtValid : Bool) (userRole : Option String) :
    AuthResult :=
  if !jwtValid then .unauthorizedError
  else
    match arg with
    | .level n =>
      if (roleLevel userRole : Int) < n then .forbiddenError else .granted
    | .roles rs =>
      if (userRole.getD "") == "" then .forbiddenError
      else if rs.contains (userRole.getD "") then .granted
      else .forbiddenError

/-- A row of the users table, with the columns UserModel.create writes. -/
structure UserRow where
  id : String
  email : String
  full_name : String
  hashed_password : String
  role : String
  face_embedding_hash : String
  created_at : Int
  updated_at : Int
  deriving Repr, DecidableEq

/-- The special-character class of the strength regex: [#?!@$%^&*-]. -/
def STRONG_SPECIALS : List Char := ['#', '?', '!', '@', '$', '%', '^', '&', '*', '-']

/-- isStrongPassword (src/unnamed part_010): the JS regex
^(with lookaheads for [A-Z], [a-z], [0-9] and a special).{8,}$ holds iff the
string has no line terminator (JS dot excludes them, and without the m flag
the anchors match only the string ends), is at least 8 characters long, and
contains one character of each of the four classes. -/
def isStrongPassword (password : String) : Bool :=
  let cs := password.toList
  decide (8 ≤ cs.length)
    && cs.all (fun c => !(c == '\n' || c == '\r' || c == '\u2028' || c == '\u2029'))
    && cs.any (fun c => c.isUpper)
    && cs.any (fun c => c.isLower)
    && cs.any (fun c => c.isDigit)
    && cs.any (fun c => STRONG_SPECIALS.contains c)

/-- Input of UserModel.create: the payload fields the function destructures. -/
structure UserCreatePayload where
  email : String
  password : String
  full_name : String
  role : String
  raw_face_data : String := ""
  deriving Repr, DecidableEq

namespace UserModel

/-- UserModel.create (src/unnamed part_014).  Rejects a weak password with
BadRequestError 'Password too weak' before any insert; then INSERT ... ON
CONFLICT (email) DO NOTHING RETURNING ... — modelled as an atomic
insert-if-email-absent — and maps a zero row count to BadRequestError 'Email
already registered'.  hashed stands for bcrypt.hashSync(password, salt),
newId for the generated uuid; the source stores the literal "blablabla" as
face_embedding_hash.  On either error the store is returned untouched. -/
def create (now : Int) (newId hashed : String) (users : List UserRow)
    (payload : UserCreatePayload) : List UserRow × Except String UserRow :=
  if !isStrongPassword payload.password then
    (users, .error "Password too weak")
  else if users.any (fun u => u.email == payload.email) then
    (users, .error "Email already registered")
  else
    let row : UserRow :=
      { id := newId
        email := payload.email
        full_name := payload.full_name
        hashed_password := hashed
        role := payload.role.toLower
        face_embedding_hash := "blablabla"
        created_at := now
        updated_at := now }
    (users ++ [row], .ok row)

end UserModel

/-- Modelled from the spec: spec §4.1.  canAcceptCheckIn(session, now) is true
iff status == active AND now in the closed interval
[checkin_opens_at, checkin_closes_at].  No check-in handler is implemented
under src/; the WHERE clause of Session.findActive is the code-side
counterpart of this predicate. -/
def canAcceptCheckIn (s : Session) (now : Int) : Bool :=
  s.status == "active" && decide (s.checkin_opens_at ≤ now)
    && decide (now ≤ s.checkin_closes_at)

/-- Modelled from the spec: a CheckIn row, reduced to the attributes the
uniqueness invariant of spec §3/§5 speaks about (session reference, student
reference, checked_in_at). -/
structure CheckIn where
  session_id : String
  student_id : String
  checked_in_at : Int
  deriving Repr, DecidableEq

/-- Errors of the check-in admission pipeline named by the spec (§4.4, §7). -/
inductive CheckInError where
  | SessionNotOpen
  | AlreadyCheckedIn
  deriving Repr, DecidableEq

/-- Number of persisted CheckIn rows for a (session, student) pair. -/
def countPair (store : List CheckIn) (sid student : String) : Nat :=
  (store.filter (fun r => r.session_id == sid && r.student_id == student)).length

/-- Modelled from the spec: spec §5.  The storage-level unique constraint on
(session_id, student_id) — no check-in persistence code exists under src/.
The insert is atomic: it fails on a conflicting existing row, and the
constraint violation is mapped to AlreadyCheckedIn rather than a generic
failure. -/
def insertCheckIn (store : List CheckIn) (c : CheckIn) :
    Except CheckInError (List CheckIn) :=
  if store.any (fun r => r.session_id == c.session_id && r.student_id == c.student_id) then
    .error .AlreadyCheckedIn
  else
    .ok (store ++ [c])

/-- Modelled from the spec: steps 1 and 2 of the Decision Engine (spec §4.4)
followed by the atomic insert — the check-in handler is not implemented under
src/.  Step 1: canAcceptCheckIn false rejects the request with SessionNotOpen
and persists nothing.  Step 2: an existing row for the pair rejects with
AlreadyCheckedIn (pre-flight).  The authoritative guard is insertCheckIn's
unique constraint; on any error the store is returned untouched. -/
def submitCheckIn (s : Session) (checkins : List CheckIn) (student : String)
    (now : Int) : List CheckIn × Except CheckInError CheckIn :=
  if !(canAcceptCheckIn s now) then
    (checkins, .error .SessionNotOpen)
  else if checkins.any (fun r => r.session_id == s.id && r.student_id == student) then
    (checkins, .error .AlreadyCheckedIn)
  else
    match insertCheckIn checkins { session_id := s.id, student_id := student, checked_in_at := now } with
    | .ok store' => (store', .ok { session_id := s.id, student_id := student, checked_in_at := now })
    | .error e => (checkins, .error e)

/-- A serialization of n concurrent insert attempts for the same CheckIn: each
attempt runs the atomic insertCheckIn; the result is the final store and the
number of attempts that succeeded.  Because the unique-constraint insert is
atomic, any interleaving of n concurrent requests is one such serialization. -/
def insertAttempts : Nat → List CheckIn → CheckIn → List CheckIn × Nat
  | 0, store, _ => (store, 0)
  | n + 1, store, c =>
    match insertCheckIn store c with
    | .ok store' =>
      let r := insertAttempts n store' c
      (r.1, r.2 + 1)
    | .error _ =>
      insertAttempts n store c

/-- Modelled from the spec: the sparse signal map of the Risk Signal Combiner
(spec §4.3) — the combiner is not implemented under src/; the weights below
are the Signal Weights table of the security-requirements document. -/
structure SignalMap where
  liveness : Option ℚ
  face_match : Option ℚ
  device : Option ℚ
  network : Option ℚ
  geolocation : Option ℚ
  deriving Repr, DecidableEq

/-- Signal weight: liveness 0.25. -/
def W_LIVENESS : ℚ := 0.25

/-- Signal weight: face match 0.25. -/
def W_FACE_MATCH : ℚ := 0.25

/-- Signal weight: device attestation 0.20. -/
def W_DEVICE : ℚ := 0.20

/-- Signal weight: network analysis 0.15. -/
def W_NETWORK : ℚ := 0.15

/-- Signal weight: geolocation 0.15. -/
def W_GEOLOCATION : ℚ := 0.15

/-- Modelled from the spec: per-signal risk contribution weight * (1 - score);
a missing signal is scored as neutral risk 0.5, so it contributes
weight * (1 - 0.5), and its weight is never redistributed. -/
def signalRisk (w : ℚ) (s : Option ℚ) : ℚ :=
  w * (1 - s.getD 0.5)

/-- Modelled from the spec: total risk score before clamping — the sum of the
five per-signal contributions. -/
def rawRiskScore (m : SignalMap) : ℚ :=
  signalRisk W_LIVENESS m.liveness + signalRisk W_FACE_MATCH m.face_match
    + signalRisk W_DEVICE m.device + signalRisk W_NETWORK m.network
    + signalRisk W_GEOLOCATION m.geolocation

/-- Clamp to the unit interval. -/
def clamp01 (x : ℚ) : ℚ := max 0 (min 1 x)

/-- Modelled from the spec: risk_score = sum of contributions, clamped to
[0,1]. -/
def riskScore (m : SignalMap) : ℚ := clamp01 (rawRiskScore m)

/-- A present signal score is normalized to [0,1]; an absent signal is
unconstrained. -/
def inRange01 (s : Option ℚ) : Bool :=
  match s with
  | none => true
  | some x => decide (0 ≤ x ∧ x ≤ 1)

/-- Helper: whether an Except is a success. -/
def exceptOk {ε α : Type} : Except ε α → Bool
  | .ok _ => true
  | .error _ => false

/-- Helper: the status of a successfully created session, none on error. -/
def okStatus : Except String Session → Option String
  | .ok s => some s.status
  | .error _ => none

/-- Helper: the check-in window opening of a successfully created session. -/
def okOpens : Except String Session → Option Int
  | .ok s => some s.checkin_opens_at
  | .error _ => none

/-- Helper: the check-in window closing of a successfully created session. -/
def okCloses : Except String Session → Option Int
  | .ok s => some s.checkin_closes_at
  | .error _ => none

/-- Baseline concrete session row for instances: given id, course, status and
check-in window, all other columns neutral. -/
def mkSession (id course status : String) (opens closes : Int) : Session :=
  { id := id
    course_id := course
    instructor_id := none
    name := "Lecture 1"
    session_type := "lecture"
    description := none
    scheduled_start := 0
    scheduled_end := 1
    checkin_opens_at := opens
    checkin_closes_at := closes
    status := status
    venue_name := none
    venue_latitude := none
    venue_longitude := none
    geofence_radius_meters := none
    require_liveness_check := true
    require_face_match := false
    risk_threshold := none
    created_at := 0
    updated_at := 0 }

/-- Baseline concrete course row for instances. -/
def mkCourse (id : String) : Course :=
  { id := id
    code := "SC3099"
    name := "Course"
    description := none
    semester := "2024S1"
    is_active := true
    venue_latitude := none
    venue_longitude := none
    venue_name := none
    geofence_radius_meters := 100
    require_face_recognition := false
    require_device_binding := true
    risk_threshold := 0.5
    created_at := 0
    updated_at := 0 }

/-- A closed session with a still-open time window. -/
def sessClosed : Session := mkSession "s1" "c1" "closed" 0 100

/-- An active session used by the delete instance. -/
def sessActiveW : Session := mkSession "s2" "c1" "active" 0 100

/-- Course table for the Course.delete instance. -/
def coursesW : List Course := [mkCourse "c1", mkCourse "c2"]

/-- Session table for the Course.delete instance: one scheduled and one closed
session of course c1, one active session of course c2. -/
def sessionsW : List Session :=
  [mkSession "s1" "c1" "scheduled" 0 100,
   mkSession "s2" "c1" "closed" 0 100,
   mkSession "s3" "c2" "active" 0 100]

/-- Creation input whose scheduled_start is not in the future. -/
def cdataPast : SessionCreateData :=
  { course_id := "c1", name := "Lecture 1", scheduled_start := 0, scheduled_end := 10 }

/-- Valid creation input with both window fields omitted. -/
def cdataGood : SessionCreateData :=
  { course_id := "c1", name := "Lecture 1", scheduled_start := 100, scheduled_end := 200 }

/-- Valid creation input omitting checkin_opens_at and supplying
checkin_closes_at. -/
def cdataWin : SessionCreateData :=
  { course_id := "c1", name := "Lecture 1", scheduled_start := 1000000,
    scheduled_end := 2000000, checkin_closes_at := some 999999999 }

/-- Signal map instance: device signal missing, the rest present. -/
def mWitness : SignalMap :=
  { liveness := some 0.9, face_match := some 0.9, device := none,
    network := some 1, geolocation := some 0 }

/-- An existing user row holding the email a duplicate registration targets. -/
def uAlice : UserRow :=
  { id := "u1", email := "a@x.com", full_name := "Alice", hashed_password := "h",
    role := "student", face_embedding_hash := "blablabla", created_at := 0, updated_at := 0 }

/-- Registration payload with a weak password. -/
def payloadWeak : UserCreatePayload :=
  { email := "b@x.com", password := "abc", full_name := "Bob", role := "student" }

/-- Registration payload with a strong password but a taken email. -/
def payloadDup : UserCreatePayload :=
  { email := "a@x.com", password := "Str0ng!pass", full_name := "Bob", role := "STUDENT" }

/-- C1: the claim fails on the code.  Session.updateStatus performs no
transition check: on a session whose status is 'closed', a request for target
status 'active' — a pair outside every legal edge, the Scenario E input — does
not fail with InvalidTransition; it succeeds and rewrites the status to
'active' both in the table and in the RETURNING row.  The only validation the
code has is membership of the status string in VALID_SESSION_STATUSES. -/
theorem updateStatus_closed_to_active_succeeds :
    Session.updateStatus 50 [sessClosed] "s1" "active"
      = ([{ sessClosed with status := "active", updated_at := 50 }],
          .ok (some { sessClosed with status := "active", updated_at := 50 })) := by
  rfl

/-- C5: Session.create rejects with a validation error, leaving the sessions
table untouched, exactly when scheduled_start is not strictly in the future,
or scheduled_end is at most scheduled_start, or the effective (defaulted)
checkin_closes_at is at most the effective checkin_opens_at; every successful
creation inserts a row whose status is 'scheduled'. -/
theorem session_create_validation (now : Int) (newId : String)
    (store : List Session) (data : SessionCreateData) :
    (exceptOk (Session.create now newId store data).2 = false ↔
      data.scheduled_start ≤ now ∨ data.scheduled_end ≤ data.scheduled_start ∨
        data.checkin_closes_at.getD (data.scheduled_start + 30 * 60 * 1000) ≤
          data.checkin_opens_at.getD (data.scheduled_start - 15 * 60 * 1000)) ∧
    (exceptOk (Session.create now newId store data).2 = false →
      (Session.create now newId store data).1 = store) ∧
    (okStatus (Session.create now newId store data).2 = none ∨
      okStatus (Session.create now newId store data).2 = some "scheduled") := by
  unfold Session.create
  dsimp only
  split_ifs with h1 h2 h3
  · simp [exceptOk, okStatus]
    exact Or.inl h1
  · simp [exceptOk, okStatus]
    exact Or.inr (Or.inl h2)
  · simp [exceptOk, okStatus]
    norm_num at h3
    exact Or.inr (Or.inr h3)
  · simp [exceptOk, okStatus]
    norm_num at h3
    exact ⟨not_le.mp h1, not_le.mp h2, h3⟩

/-- C5 instance: a start time not in the future is rejected; a valid input
yields a session whose status is 'scheduled'. -/
theorem session_create_validation_witness :
    exceptOk (Session.create 0 "i1" [] cdataPast).2 = false ∧
    okStatus (Session.create 10 "i1" [] cdataGood).2 = some "scheduled" := by
  refine ⟨(session_create_validation 0 "i1" [] cdataPast).1.mpr (Or.inl (by decide)), ?_⟩
  exact ((session_create_validation 10 "i1" [] cdataGood).2.2).resolve_left (by decide)

/-- C6: on every successful creation the check-in window is the supplied value
when present and the default otherwise, independently per field: opens is
checkin_opens_at when given, else scheduled_start minus 15 minutes; closes is
checkin_closes_at when given, else scheduled_start plus 30 minutes. -/
theorem session_create_default_window (now : Int) (newId : String)
    (store : List Session) (data : SessionCreateData)
    (h : exceptOk (Session.create now newId store data).2 = true) :
    okOpens (Session.create now newId store data).2
        = some (data.checkin_opens_at.getD (data.scheduled_start - 15 * 60 * 1000)) ∧
    okCloses (Session.create now newId store data).2
        = some (data.checkin_closes_at.getD (data.scheduled_start + 30 * 60 * 1000)) := by
  unfold Session.create at h ⊢
  dsimp only at h ⊢
  split_ifs at h ⊢ <;> simp_all [exceptOk, okOpens, okCloses]

/-- C6 instance: with checkin_opens_at omitted and checkin_closes_at supplied,
the created session defaults opens to start - 15min and keeps the supplied
closes. -/
theorem session_create_default_window_witness :
    okOpens (Session.create 0 "i2" [] cdataWin).2 = some 100000 ∧
    okCloses (Session.create 0 "i2" [] cdataWin).2 = some 999999999 := by
  have h := session_create_default_window 0 "i2" [] cdataWin (by decide)
  exact ⟨h.1.trans (by decide), h.2.trans (by decide)⟩

/-- C7: Session.delete fails with 'Session not found' when no row has the id;
it fails with the only-scheduled error and leaves the table untouched when the
matched row's status is 'active', 'closed' or 'cancelled'; and it removes the
row only when the status is 'scheduled'. -/
theorem session_delete_only_scheduled (store : List Session) (id : String) :
    (store.find? (fun s => s.id == id) = none →
      Session.delete store id = (store, .error "Session not found")) ∧
    (∀ s, store.find? (fun s => s.id == id) = some s →
      (s.status = "active" ∨ s.status = "closed" ∨ s.status = "cancelled") →
      Session.delete store id =
        (store, .error "Only scheduled sessions can be deleted. Use cancel for active/closed sessions.")) ∧
    (∀ s, store.find? (fun s => s.id == id) = some s → s.status = "scheduled" →
      Session.delete store id = (store.filter (fun t => t.id != id), .ok ())) := by
  refine ⟨fun hnone => ?_, fun s hs hstat => ?_, fun s hs hstat => ?_⟩
  · unfold Session.delete
    rw [hnone]
  · unfold Session.delete
    rw [hs]
    have : (s.status != "scheduled") = true := by
      rcases hstat with h | h | h <;> simp [h]
    simp [this]
  · unfold Session.delete
    rw [hs]
    simp [hstat]

/-- C7 instance: deleting an active session fails with the only-scheduled
error and keeps the row; deleting an unknown id fails with not-found. -/
theorem session_delete_only_scheduled_witness :
    Session.delete [sessActiveW] "s2" =
      ([sessActiveW], .error "Only scheduled sessions can be deleted. Use cancel for active/closed sessions.") ∧
    Session.delete [sessActiveW] "zz" = ([sessActiveW], .error "Session not found") := by
  refine ⟨(session_delete_only_scheduled [sessActiveW] "s2").2.1 sessActiveW (by decide) (Or.inl rfl), ?_⟩
  exact (session_delete_only_scheduled [sessActiveW] "zz").1 (by decide)

/-- C8: Course.delete on an id with no matching course returns false and
modifies nothing; on an existing id it returns true, sets is_active of every
matching course row to false (leaving other courses unchanged), cancels every
session of that course whose status is 'scheduled' or 'active', and leaves
every other session row — same-course sessions in any other status, and all
sessions of other courses — unchanged. -/
theorem course_delete_cascade (now : Int) (courses : List Course)
    (sessions : List Session) (id : String) :
    (courses.any (fun c => c.id == id) = false →
      Course.delete now courses sessions id = (courses, sessions, false)) ∧
    (courses.any (fun c => c.id == id) = true →
      (Course.delete now courses sessions id).2.2 = true ∧
      (∀ i c, courses.get? i = some c →
        (c.id = id → (Course.delete now courses sessions id).1.get? i
            = some { c with is_active := false, updated_at := now }) ∧
        (c.id ≠ id → (Course.delete now courses sessions id).1.get? i = some c)) ∧
      (∀ i s, sessions.get? i = some s →
        (s.course_id = id → (s.status = "scheduled" ∨ s.status = "active") →
          (Course.delete now courses sessions id).2.1.get? i
            = some { s with status := "cancelled", updated_at := now }) ∧
        (s.course_id = id → s.status ≠ "scheduled" → s.status ≠ "active" →
          (Course.delete now courses sessions id).2.1.get? i = some s) ∧
        (s.course_id ≠ id →
          (Course.delete now courses sessions id).2.1.get? i = some s))) := by
  constructor
  · intro hany
    unfold Course.delete
    rw [if_neg (by simp [hany])]
  · intro hany
    unfold Course.delete
    rw [if_pos hany]
    refine ⟨rfl, fun i c hc => ?_, fun i s hs => ?_⟩
    · simp only [List.get?_map, hc, Option.map_some']
      constructor
      · intro hid
        rw [if_pos (by simp [hid])]
      · intro hid
        rw [if_neg (by simp [hid])]
    · simp only [List.get?_map, hs, Option.map_some']
      refine ⟨fun hcid hstat => ?_, fun hcid h1 h2 => ?_, fun hcid => ?_⟩
      · rcases hstat with h | h <;> rw [if_pos (by simp [hcid, h])]
      · rw [if_neg (by simp [hcid, h1, h2])]
      · rw [if_neg (by simp [hcid])]

/-- C8 instance: deleting course c1 cancels its scheduled session, leaves its
closed session and the other course's active session unchanged, and returns
true; deleting the unknown id c9 returns false and changes nothing. -/
theorem course_delete_cascade_witness :
    (Course.delete 50 coursesW sessionsW "c1").2.2 = true ∧
    (Course.delete 50 coursesW sessionsW "c1").1.get? 0
      = some { mkCourse "c1" with is_active := false, updated_at := 50 } ∧
    (Course.delete 50 coursesW sessionsW "c1").2.1.get? 0
      = some { mkSession "s1" "c1" "scheduled" 0 100 with status := "cancelled", updated_at := 50 } ∧
    (Course.delete 50 coursesW sessionsW "c1").2.1.get? 1
      = some (mkSession "s2" "c1" "closed" 0 100) ∧
    (Course.delete 50 coursesW sessionsW "c1").2.1.get? 2
      = some (mkSession "s3" "c2" "active" 0 100) ∧
    Course.delete 0 coursesW sessionsW "c9" = (coursesW, sessionsW, false) := by
  have h := (course_delete_cascade 50 coursesW sessionsW "c1").2 (by decide)
  have h9 := (course_delete_cascade 0 coursesW sessionsW "c9").1 (by decide)
  refine ⟨h.1, ?_, ?_, ?_, ?_, h9⟩
  · exact (h.2.1 0 (mkCourse "c1") rfl).1 rfl
  · exact (h.2.2 0 (mkSession "s1" "c1" "scheduled" 0 100) rfl).1 rfl (Or.inl rfl)
  · exact (h.2.2 1 (mkSession "s2" "c1" "closed" 0 100) rfl).2.1 rfl (by decide) (by decide)
  · exact (h.2.2 2 (mkSession "s3" "c2" "active" 0 100) rfl).2.2 (by decide)

/-- C10: UserModel.create rejects a weak password with 'Password too weak'
before any insert; with a strong password and an email already present it
inserts nothing and fails with 'Email already registered' (the zero row count
of the ON CONFLICT DO NOTHING insert); on every failure the users table is
unchanged, and a successful insert happens only when no existing row holds the
email. -/
theorem user_create_unique_email (now : Int) (newId hashed : String)
    (users : List UserRow) (payload : UserCreatePayload) :
    (isStrongPassword payload.password = false →
      UserModel.create now newId hashed users payload
        = (users, .error "Password too weak")) ∧
    (isStrongPassword payload.password = true →
      users.any (fun u => u.email == payload.email) = true →
      UserModel.create now newId hashed users payload
        = (users, .error "Email already registered")) ∧
    (exceptOk (UserModel.create now newId hashed users payload).2 = false →
      (UserModel.create now newId hashed users payload).1 = users) ∧
    (∀ u, (UserModel.create now newId hashed users payload).2 = .ok u →
      (UserModel.create now newId hashed users payload).1 = users ++ [u] ∧
      (∀ v ∈ users, v.email ≠ payload.email)) := by
  unfold UserModel.create
  split_ifs with hstrong hdup
  · simp_all [exceptOk]
  · simp_all [exceptOk]
  · refine ⟨by simp_all, by simp_all, by simp [exceptOk], fun u hu => ?_⟩
    simp only [Except.ok.injEq] at hu
    subst hu
    refine ⟨rfl, fun v hv hemail => ?_⟩
    have : users.any (fun u => u.email == payload.email) = true := by
      rw [List.any_eq_true]
      exact ⟨v, hv, by simp [hemail]⟩
    exact hdup this

/-- C10 instance: a weak password and a duplicate email are each rejected with
the respective BadRequestError message, leaving the users table untouched. -/
theorem user_create_unique_email_witness :
    UserModel.create 1 "u2" "hh" [uAlice] payloadWeak
      = ([uAlice], .error "Password too weak") ∧
    UserModel.create 1 "u2" "hh" [uAlice] payloadDup
      = ([uAlice], .error "Email already registered") := by
  refine ⟨(user_create_unique_email 1 "u2" "hh" [uAlice] payloadWeak).1 (by decide), ?_⟩
  exact (user_create_unique_email 1 "u2" "hh" [uAlice] payloadDup).2.1 (by decide) (by decide)

/-- C9 counterexample: the claim's corollary that a missing role is always
rejected with ForbiddenError fails for the numeric required level 0, a value
the guard's number-typed argument admits: the level of a missing role is 0,
0 < 0 is false, and the guard grants access. -/
theorem authorize_level_zero_grants_roleless :
    authorize (AuthArg.level 0) true none = AuthResult.granted := by
  decide

/-- C9 amended: with a verified JWT and a numeric required level, access is
granted iff the requester's hierarchy level (student 1, ta 2, instructor 3,
admin 4; missing or unrecognized role 0) is at least the required level, and
otherwise the guard rejects with ForbiddenError — so a missing role is
rejected whenever the required level is positive, in particular at the
default level 1 and at every hierarchy level.  A failed JWT verification is
rejected with UnauthorizedError before any role check.  With a role-list
argument, access is granted iff the (non-empty) role claim is in the list. -/
theorem authorize_amended (jwtValid : Bool) (userRole : Option String)
    (n : Int) (rs : List String) :
    (jwtValid = false →
      authorize (AuthArg.level n) jwtValid userRole = AuthResult.unauthorizedError ∧
      authorize (AuthArg.roles rs) jwtValid userRole = AuthResult.unauthorizedError) ∧
    (jwtValid = true →
      (authorize (AuthArg.level n) jwtValid userRole = AuthResult.granted ↔
        n ≤ (roleLevel userRole : Int)) ∧
      ((roleLevel userRole : Int) < n →
        authorize (AuthArg.level n) jwtValid userRole = AuthResult.forbiddenError) ∧
      (userRole = none → roleLevel userRole = 0) ∧
      (∀ r, userRole = some r → USER_ROLE_HIERARCHY.lookup r = none →
        roleLevel userRole = 0) ∧
      (userRole = none → 1 ≤ n →
        authorize (AuthArg.level n) jwtValid userRole = AuthResult.forbiddenError) ∧
      (authorize (AuthArg.roles rs) jwtValid userRole = AuthResult.granted ↔
        ∃ r, userRole = some r ∧ r ≠ "" ∧ r ∈ rs) ∧
      (∀ r, userRole = some r → r ∉ rs →
        authorize (AuthArg.roles rs) jwtValid userRole = AuthResult.forbiddenError)) ∧
    (roleLevel (some "student") = 1 ∧ roleLevel (some "ta") = 2 ∧
      roleLevel (some "instructor") = 3 ∧ roleLevel (some "admin") = 4) := by
  refine ⟨fun hjwt => ?_, fun hjwt => ?_, by decide⟩
  · subst hjwt
    exact ⟨rfl, rfl⟩
  · subst hjwt
    refine ⟨?_, fun hlt => ?_, fun hr => ?_, fun r hr hlook => ?_, fun hr hn => ?_, ?_, fun r hr hmem => ?_⟩
    · unfold authorize
      by_cases h : (roleLevel userRole : Int) < n
      · simp only [Bool.not_true, Bool.false_eq_true, if_false, if_pos h]
        constructor
        · intro hcontr
          cases hcontr
        · intro hle
          omega
      · simp only [Bool.not_true, Bool.false_eq_true, if_false, if_neg h]
        exact ⟨fun _ => by omega, fun _ => by simp⟩
    · unfold authorize
      simp [hlt]
    · subst hr
      rfl
    · subst hr
      simp [roleLevel, hlook]
    · subst hr
      have hlt : (roleLevel (none : Option String) : Int) < n := by
        simp only [roleLevel]
        omega
      unfold authorize
      simp [hlt]
    · unfold authorize
      cases userRole with
      | none => simp
      | some r =>
        by_cases hre : r = ""
        · subst hre
          simp
        · by_cases hmem : r ∈ rs
          · have hc : rs.contains r = true := List.elem_eq_true_of_mem hmem
            simp [hre, hc, hmem]
          · have hc : rs.contains r = false := by simpa using hmem
            simp [hre, hc, hmem]
    · subst hr
      have hc : rs.contains r = false := by simpa using hmem
      unfold authorize
      by_cases hre : r = ""
      · subst hre
        simp
      · simp [hre, hc, hmem]

/-- C9 instance: instructor level 3 is granted at required level 3; a missing
role claim is forbidden at the default level 1; an invalid JWT is rejected as
unauthorized before any role check; a ta is forbidden by the instructor/admin
role list. -/
theorem authorize_amended_witness :
    authorize (AuthArg.level 3) true (some "instructor") = AuthResult.granted ∧
    authorize (AuthArg.level 1) true none = AuthResult.forbiddenError ∧
    authorize (AuthArg.level 2) false (some "admin") = AuthResult.unauthorizedError ∧
    authorize (AuthArg.roles ["instructor", "admin"]) true (some "ta")
      = AuthResult.forbiddenError := by
  refine ⟨?_, ?_, ?_, ?_⟩
  · exact ((authorize_amended true (some "instructor") 3 []).2.1 rfl).1.mpr (by decide)
  · exact ((authorize_amended true none 1 []).2.1 rfl).2.2.2.2.1 rfl (by decide)
  · exact ((authorize_amended false (some "admin") 2 []).1 rfl).1
  · exact ((authorize_amended true (some "ta") 0 ["instructor", "admin"]).2.1 rfl).2.2.2.2.2.2
      "ta" rfl (by decide)

/-- The pre-flight/constraint predicate is everywhere false exactly when the
pair has no row. -/
theorem countPair_any (store : List CheckIn) (sid stu : String) :
    store.any (fun r => r.session_id == sid && r.student_id == stu) = false ↔
      countPair store sid stu = 0 := by
  unfold countPair
  rw [List.length_eq_zero, List.filter_eq_nil_iff, List.any_eq_false]

/-- The unique-constraint insert accepts a pair with no existing row. -/
theorem insertCheckIn_ok (store : List CheckIn) (c : CheckIn)
    (h : countPair store c.session_id c.student_id = 0) :
    insertCheckIn store c = .ok (store ++ [c]) := by
  have hany := (countPair_any store c.session_id c.student_id).mpr h
  unfold insertCheckIn
  simp [hany]

/-- The unique-constraint insert rejects a pair that already has a row. -/
theorem insertCheckIn_conflict (store : List CheckIn) (c : CheckIn)
    (h : store.any (fun r => r.session_id == c.session_id && r.student_id == c.student_id) = true) :
    insertCheckIn store c = .error .AlreadyCheckedIn := by
  unfold insertCheckIn
  simp [h]

/-- Once the pair has a row, any further serialized attempts leave the store
unchanged and add no success. -/
theorem insertAttempts_conflict (m : Nat) (store : List CheckIn) (c : CheckIn)
    (h : store.any (fun r => r.session_id == c.session_id && r.student_id == c.student_id) = true) :
    insertAttempts m store c = (store, 0) := by
  induction m with
  | zero => rfl
  | succ k ih =>
    unfold insertAttempts
    rw [insertCheckIn_conflict store c h]
    exact ih

/-- countPair distributes over append. -/
theorem countPair_append (l1 l2 : List CheckIn) (sid stu : String) :
    countPair (l1 ++ l2) sid stu = countPair l1 sid stu + countPair l2 sid stu := by
  unfold countPair
  rw [List.filter_append, List.length_append]

/-- C2: starting from a store with no row for (session, student), the first
submission persists exactly one row; a second submission fails with
AlreadyCheckedIn and persists nothing; the storage-level unique constraint
alone (bypassing the pre-flight) also reports AlreadyCheckedIn; any
serialization of n concurrent insert attempts ends with exactly one success
and exactly the one persisted row; and the at-most-one-row-per-pair invariant
is preserved for every pair. -/
theorem checkin_unique_per_pair (s : Session) (checkins : List CheckIn)
    (student : String) (now : Int) (n : Nat)
    (hcan : canAcceptCheckIn s now = true)
    (h0 : countPair checkins s.id student = 0)
    (hn : 1 ≤ n) :
    (submitCheckIn s checkins student now
        = (checkins ++ [⟨s.id, student, now⟩], .ok ⟨s.id, student, now⟩)) ∧
    (submitCheckIn s (checkins ++ [⟨s.id, student, now⟩]) student now
        = (checkins ++ [⟨s.id, student, now⟩], .error .AlreadyCheckedIn)) ∧
    (insertCheckIn (checkins ++ [⟨s.id, student, now⟩]) ⟨s.id, student, now⟩
        = .error .AlreadyCheckedIn) ∧
    (insertAttempts n checkins ⟨s.id, student, now⟩
        = (checkins ++ [⟨s.id, student, now⟩], 1)) ∧
    (∀ sid stu, countPair checkins sid stu ≤ 1 →
        countPair (checkins ++ [⟨s.id, student, now⟩]) sid stu ≤ 1) := by
  have hany : checkins.any (fun r => r.session_id == s.id && r.student_id == student) = false :=
    (countPair_any checkins s.id student).mpr h0
  have hok : insertCheckIn checkins ⟨s.id, student, now⟩
      = .ok (checkins ++ [⟨s.id, student, now⟩]) :=
    insertCheckIn_ok checkins ⟨s.id, student, now⟩ h0
  have hconf : ((checkins ++ [CheckIn.mk s.id student now]).any
      (fun r => r.session_id == s.id && r.student_id == student)) = true := by
    rw [List.any_append]
    simp
  refine ⟨?_, ?_, ?_, ?_, ?_⟩
  · unfold submitCheckIn
    rw [hcan, hany, hok]
    rfl
  · unfold submitCheckIn
    rw [hcan, hconf]
    rfl
  · exact insertCheckIn_conflict _ _ hconf
  · obtain ⟨m, rfl⟩ : ∃ m, n = m + 1 := ⟨n - 1, by omega⟩
    unfold insertAttempts
    rw [hok]
    dsimp only
    rw [insertAttempts_conflict m (checkins ++ [CheckIn.mk s.id student now])
      (CheckIn.mk s.id student now) hconf]
  · intro sid stu hle
    rw [countPair_append]
    by_cases hp : ((⟨s.id, student, now⟩ : CheckIn).session_id == sid
        && (⟨s.id, student, now⟩ : CheckIn).student_id == stu) = true
    · simp only [Bool.and_eq_true, beq_iff_eq] at hp
      obtain ⟨hp1, hp2⟩ := hp
      have : countPair checkins sid stu = 0 := by
        rw [← hp1, ← hp2]
        exact h0
      have hone : countPair [(⟨s.id, student, now⟩ : CheckIn)] sid stu ≤ 1 := by
        unfold countPair
        simp [List.filter]
        split <;> simp
      omega
    · have : countPair [(⟨s.id, student, now⟩ : CheckIn)] sid stu = 0 := by
        unfold countPair
        simp only [List.filter, hp]
        rfl
      omega

/-- C2 instance: three serialized attempts for the same pair on an empty table
persist exactly one row with exactly one success, and the unique constraint
reports the duplicate as AlreadyCheckedIn. -/
theorem checkin_unique_per_pair_witness :
    insertAttempts 3 [] ⟨"s1", "u1", 10⟩ = ([⟨"s1", "u1", 10⟩], 1) ∧
    insertCheckIn [⟨"s1", "u1", 10⟩] ⟨"s1", "u1", 10⟩ = .error .AlreadyCheckedIn ∧
    submitCheckIn (mkSession "s1" "c1" "active" 0 100) [] "u1" 10
      = ([⟨"s1", "u1", 10⟩], .ok ⟨"s1", "u1", 10⟩) := by
  have h := checkin_unique_per_pair (mkSession "s1" "c1" "active" 0 100) [] "u1" 10 3
    (by decide) (by decide) (by decide)
  exact ⟨h.2.2.2.1, h.2.2.1, h.1⟩

/-- C3: the WHERE clause of Session.findActive coincides with the spec's
canAcceptCheckIn; canAcceptCheckIn holds iff the status is 'active' and now
lies in the closed interval [checkin_opens_at, checkin_closes_at]; and for a
session whose status is 'closed' or 'cancelled' no check-in request ever
succeeds — the submission is rejected with SessionNotOpen and persists
nothing, regardless of the time window. -/
theorem canAcceptCheckIn_characterization (s : Session) (now : Int)
    (student : String) (checkins : List CheckIn) :
    (Session.findActiveWhere s now = canAcceptCheckIn s now) ∧
    (canAcceptCheckIn s now = true ↔
      s.status = "active" ∧ s.checkin_opens_at ≤ now ∧ now ≤ s.checkin_closes_at) ∧
    (s.status = "closed" ∨ s.status = "cancelled" →
      submitCheckIn s checkins student now = (checkins, .error .SessionNotOpen)) := by
  refine ⟨rfl, ?_, fun hstat => ?_⟩
  · unfold canAcceptCheckIn
    simp [and_assoc]
  · have hne : s.status ≠ "active" := by
      rcases hstat with h | h <;> simp [h]
    have hfalse : canAcceptCheckIn s now = false := by
      unfold canAcceptCheckIn
      simp [hne]
    unfold submitCheckIn
    rw [hfalse]
    rfl

/-- C3 instance: a closed session with the clock inside its window is filtered
out of findActive, fails canAcceptCheckIn, and rejects a submission with
SessionNotOpen. -/
theorem canAcceptCheckIn_characterization_witness :
    Session.findActiveWhere sessClosed 50 = canAcceptCheckIn sessClosed 50 ∧
    submitCheckIn sessClosed [] "u1" 50 = ([], .error .SessionNotOpen) := by
  have h := canAcceptCheckIn_characterization sessClosed 50 "u1" []
  exact ⟨h.1, h.2.2 (Or.inl rfl)⟩

/-- Each signal's contribution lies between 0 and its weight: a present score
in [0,1] gives weight * (1 - score) in [0, weight], and a missing signal gives
weight * (1 - 0.5). -/
theorem signalRisk_bounds (w : ℚ) (hw : 0 ≤ w) (s : Option ℚ)
    (hs : inRange01 s = true) : 0 ≤ signalRisk w s ∧ signalRisk w s ≤ w := by
  cases s with
  | none =>
    unfold signalRisk
    simp only [Option.getD_none]
    have h5 : (1 : ℚ) - 0.5 = 1 / 2 := by norm_num
    rw [h5]
    constructor <;> linarith
  | some x =>
    unfold inRange01 at hs
    simp only [decide_eq_true_eq] at hs
    obtain ⟨hx0, hx1⟩ := hs
    unfold signalRisk
    simp only [Option.getD_some]
    constructor
    · exact mul_nonneg hw (by linarith)
    · nlinarith [mul_nonneg hw hx0]

/-- C4: the five fixed signal weights (liveness 0.25, face_match 0.25, device
0.20, network 0.15, geolocation 0.15) sum to exactly 1; whenever every present
signal score lies in [0,1], the raw weighted risk sum already lies in [0,1],
so the clamp is the identity and risk_score lies in [0,1]; and a missing
signal contributes weight * (1 - 0.5) — its own term only, with no
redistribution onto other signals. -/
theorem risk_weights_sum_and_bounds (m : SignalMap)
    (h1 : inRange01 m.liveness = true) (h2 : inRange01 m.face_match = true)
    (h3 : inRange01 m.device = true) (h4 : inRange01 m.network = true)
    (h5 : inRange01 m.geolocation = true) :
    (W_LIVENESS + W_FACE_MATCH + W_DEVICE + W_NETWORK + W_GEOLOCATION = 1) ∧
    (0 ≤ rawRiskScore m ∧ rawRiskScore m ≤ 1) ∧
    (riskScore m = rawRiskScore m) ∧
    (0 ≤ riskScore m ∧ riskScore m ≤ 1) ∧
    (∀ w : ℚ, signalRisk w none = w * (1 - 0.5)) := by
  have hsum : W_LIVENESS + W_FACE_MATCH + W_DEVICE + W_NETWORK + W_GEOLOCATION = 1 := by
    norm_num [W_LIVENESS, W_FACE_MATCH, W_DEVICE, W_NETWORK, W_GEOLOCATION]
  have b1 := signalRisk_bounds W_LIVENESS (by norm_num [W_LIVENESS]) m.liveness h1
  have b2 := signalRisk_bounds W_FACE_MATCH (by norm_num [W_FACE_MATCH]) m.face_match h2
  have b3 := signalRisk_bounds W_DEVICE (by norm_num [W_DEVICE]) m.device h3
  have b4 := signalRisk_bounds W_NETWORK (by norm_num [W_NETWORK]) m.network h4
  have b5 := signalRisk_bounds W_GEOLOCATION (by norm_num [W_GEOLOCATION]) m.geolocation h5
  have hraw0 : 0 ≤ rawRiskScore m := by
    unfold rawRiskScore
    linarith [b1.1, b2.1, b3.1, b4.1, b5.1]
  have hraw1 : rawRiskScore m ≤ 1 := by
    unfold rawRiskScore
    linarith [b1.2, b2.2, b3.2, b4.2, b5.2]
  have heq : riskScore m = rawRiskScore m := by
    unfold riskScore clamp01
    rw [min_eq_right hraw1, max_eq_right hraw0]
  refine ⟨hsum, ⟨hraw0, hraw1⟩, heq, ?_, fun w => rfl⟩
  rw [heq]
  exact ⟨hraw0, hraw1⟩

/-- C4 instance: on a map with the device signal missing and the other four
present in [0,1], the weights sum to 1 and the combined risk score lies in
[0,1]. -/
theorem risk_weights_sum_and_bounds_witness :
    (W_LIVENESS + W_FACE_MATCH + W_DEVICE + W_NETWORK + W_GEOLOCATION = 1) ∧
    0 ≤ riskScore mWitness ∧ riskScore mWitness ≤ 1 := by
  have h := risk_weights_sum_and_bounds mWitness
    (by simp only [mWitness, inRange01, decide_eq_true_eq]; norm_num)
    (by simp only [mWitness, inRange01, decide_eq_true_eq]; norm_num)
    (by simp only [mWitness, inRange01])
    (by simp only [mWitness, inRange01, decide_eq_true_eq]; norm_num)
    (by simp only [mWitness, inRange01, decide_eq_true_eq]; norm_num)
  exact ⟨h.1, h.2.2.2.1⟩

end SAIV
